import Mathlib

/-!
# Verification of the huispedia-scraper extraction and pagination core

A shallow embedding of the Python sources (`utils.py`, `models.py`,
`scraper.py`, `config.py`) of the huispedia-scraper repository, together
with theorems settling the frozen claims about its specification.

Modelling conventions:
* Python strings are `String` / `List Char`; the character classes of the
  regular expressions (`\d`, `\s`, `\w`, `[a-z]`, `[A-Z]`) and the
  case-folding of `str.lower()` are modelled over their ASCII meaning,
  which covers every character the program's patterns and tables mention.
* Each `re.search`/`re.match` call is embedded as a dedicated scanner that
  replays the pattern's leftmost-match semantics; every pattern in the
  source is backtracking-free except the energy-label one, whose
  backtracking is replayed explicitly.
* Optional integers are `Option Nat`: every integer the program stores is
  produced by `int()` on a run of decimal digits, hence non-negative.
* The HTML documents handed to BeautifulSoup are modelled as ordered
  trees (`Node`); `find`/`find_all` are pre-order (document order)
  traversals of the strict descendants, as in bs4.
* The HTTP transport is a parameter `transport : String → Option Node`
  (URL to rendered document, `none` = request failure); the ambient clock
  used for `date_scraped` is a parameter `now : String`.
-/

/-! ## Python-flavoured character and string primitives -/

/-- ASCII decimal digit (`\d`). -/
def isDigitCh (c : Char) : Bool := '0' ≤ c && c ≤ '9'

/-- Whitespace as matched by `\s` and stripped by `str.strip()` (ASCII part). -/
def isPySpace (c : Char) : Bool :=
  c = ' ' || c = '\t' || c = '\n' || c = '\r' || c = '\x0b' || c = '\x0c'

/-- ASCII lowercase letter. -/
def isLowerCh (c : Char) : Bool := 'a' ≤ c && c ≤ 'z'

/-- ASCII uppercase letter. -/
def isUpperCh (c : Char) : Bool := 'A' ≤ c && c ≤ 'Z'

/-- Word character as matched by `\w` and tested by `\b` (ASCII part). -/
def isWordCh (c : Char) : Bool := isDigitCh c || isLowerCh c || isUpperCh c || c = '_'

/-- `[a-z\-]`, the first path-segment class of the listing-link pattern. -/
def isLowerDash (c : Char) : Bool := isLowerCh c || c = '-'

/-- `[\d.]`, the numeric-token class of the price patterns. -/
def isDigitDot (c : Char) : Bool := isDigitCh c || c = '.'

/-- `str.lower()` on one character (ASCII case folding). -/
def pyLowerCh (c : Char) : Char :=
  if isUpperCh c then Char.ofNat (c.toNat + 32) else c

/-- `str.lower()`. -/
def pyLower (l : List Char) : List Char := l.map pyLowerCh

/-- `str.upper()` on one character (ASCII case folding), for `str.title()`. -/
def pyUpperCh (c : Char) : Char :=
  if isLowerCh c then Char.ofNat (c.toNat - 32) else c

/-- Python's `needle in hay` substring test. -/
def containsSub (hay needle : List Char) : Bool :=
  match hay with
  | [] => needle.isEmpty
  | _ :: t => needle.isPrefixOf hay || containsSub t needle

/-- Case-insensitive substring test (`re.search` of a literal with `re.I`). -/
def containsSubCI (hay needle : List Char) : Bool :=
  containsSub (pyLower hay) (pyLower needle)

/-- `str.strip()` (whitespace both ends). -/
def pyStrip (l : List Char) : List Char :=
  ((l.dropWhile isPySpace).reverse.dropWhile isPySpace).reverse

/-- `str.strip(chars)` for a one-character set, e.g. `strip("/")`. -/
def pyStripCh (sep : Char) (l : List Char) : List Char :=
  ((l.dropWhile (· = sep)).reverse.dropWhile (· = sep)).reverse

/-- `List.drop` by structural recursion on the count (kernel-reducible). -/
def dropN : Nat → List Char → List Char
  | 0, l => l
  | _ + 1, [] => []
  | n + 1, _ :: t => dropN n t

/-- One step of `str.replace(old, new)`: fuel-driven so that it is
structurally recursive; `replaceAll` supplies fuel `l.length`, which
suffices because every step consumes at least one character. -/
def replaceGo (old new : List Char) : Nat → List Char → List Char
  | 0, l => l
  | _ + 1, [] => []
  | fuel + 1, c :: t =>
    if old ≠ [] ∧ old.isPrefixOf (c :: t) then
      new ++ replaceGo old new fuel (dropN (old.length - 1) t)
    else
      c :: replaceGo old new fuel t

/-- `str.replace(old, new)`: all non-overlapping occurrences, left to right.
(The program never calls `replace` with an empty `old`.) -/
def replaceAll (l old new : List Char) : List Char := replaceGo old new l.length l

/-- `str.split(sep)` generalised to a character predicate: splits at every
separator character, keeping empty parts (Python `split` with argument). -/
def pySplitP (p : Char → Bool) : List Char → List (List Char)
  | [] => [[]]
  | c :: t =>
    if p c then [] :: pySplitP p t
    else
      match pySplitP p t with
      | h :: r => (c :: h) :: r
      | [] => [[c]]

/-- `str.split("/")` and friends. -/
def pySplit (sep : Char) (l : List Char) : List (List Char) := pySplitP (· = sep) l

/-- `str.split()` with no argument: whitespace runs, no empty parts. -/
def pySplitWs (l : List Char) : List (List Char) :=
  (pySplitP isPySpace l).filter (fun x => !x.isEmpty)

/-- `str.title()` (ASCII-cased model): uppercase the first letter of every
run of letters, lowercase the rest. -/
def pyTitleGo : Bool → List Char → List Char
  | _, [] => []
  | prevAlpha, c :: t =>
    let isA := isLowerCh c || isUpperCh c
    (if isA then (if prevAlpha then pyLowerCh c else pyUpperCh c) else c) ::
      pyTitleGo isA t

/-- `str.title()`. -/
def pyTitle (l : List Char) : List Char := pyTitleGo false l

/-- `int()` on the digit runs the program feeds it: `none` on the empty
string or any non-digit character (raising `ValueError` in Python),
otherwise the decimal value. -/
def digitsToNat (l : List Char) : Option Nat :=
  if !l.isEmpty && l.all isDigitCh then
    some (l.foldl (fun a c => a * 10 + (c.toNat - 48)) 0)
  else none

/-- Pack a character list back into a `String`. -/
def strOf (l : List Char) : String := ⟨l⟩

/-- Python truthiness of an optional integer (`if max_pages:`-style guards):
`None` and `0` are falsy. -/
def pyOptTrue : Option Nat → Bool
  | some n => n ≠ 0
  | none => false

/-! ## The regular-expression scanners of `utils.py` -/

/-- `re.search(r'€\s*([\d.]+)', s)`: group 1 of the leftmost match.
Positions not starting with `€` fail immediately, so the scan may jump
from one `€` to the next. -/
def searchEuroNum : List Char → Option (List Char)
  | [] => none
  | c :: rest =>
    if c = '€' then
      let g := (rest.dropWhile isPySpace).takeWhile isDigitDot
      if g.isEmpty then searchEuroNum rest else some g
    else searchEuroNum rest

/-- `re.search(r'(\d+)\s*<unit>', s)` for a unit recogniser `unitOk` on the
text after the optional whitespace: group 1 of the leftmost match.  The
digit run is maximal (no unit in the source starts with a digit or a
space, so the regex never backtracks into the run). -/
def searchNumUnit (unitOk : List Char → Bool) : List Char → Option (List Char)
  | [] => none
  | c :: rest =>
    if isDigitCh c then
      let after := rest.dropWhile isDigitCh
      if unitOk (after.dropWhile isPySpace) then
        some (c :: rest.takeWhile isDigitCh)
      else searchNumUnit unitOk rest
    else searchNumUnit unitOk rest

/-- Unit `m[²2]` of the area pattern. -/
def areaUnit : List Char → Bool
  | 'm' :: x :: _ => x = '²' || x = '2'
  | _ => false

/-- Unit `m[³3]` of the volume pattern. -/
def volumeUnit : List Char → Bool
  | 'm' :: x :: _ => x = '³' || x = '3'
  | _ => false

/-- Literal word units (`kamer`, `slaapkamer`, `badkamer`, `woonla`). -/
def wordUnit (w : String) (l : List Char) : Bool := w.data.isPrefixOf l

/-- Is the position before this suffix a `\b` boundary coming from a word
character, i.e. does the suffix not start with a word character? -/
def noWordHead : List Char → Bool
  | [] => true
  | e :: _ => !isWordCh e

/-- One attempt of `\b(19\d{2}|20\d{2})\b` at the current position
(`prevW` = is the previous character a word character). -/
def yearAt (prevW : Bool) : List Char → Option Nat
  | a :: b :: c :: d :: tail =>
    if !prevW && ((a = '1' && b = '9') || (a = '2' && b = '0'))
        && isDigitCh c && isDigitCh d && noWordHead tail then
      some (((a.toNat - 48) * 10 + (b.toNat - 48)) * 100
        + (c.toNat - 48) * 10 + (d.toNat - 48))
    else none
  | _ => none

/-- `re.search(r'\b(19\d{2}|20\d{2})\b', s)`: value of the leftmost
boundary-delimited 4-digit year. -/
def searchYearGo : Bool → List Char → Option Nat
  | _, [] => none
  | prevW, a :: rest =>
    match yearAt prevW (a :: rest) with
    | some v => some v
    | none => searchYearGo (isWordCh a) rest

/-- `re.search(r'(\d{4}\s*[A-Z]{2})', s)`: the matched text of the leftmost
postal-code-shaped fragment. -/
def searchPostal : List Char → Option (List Char)
  | [] => none
  | a :: rest =>
    match rest with
    | b :: c :: d :: tail =>
      if isDigitCh a && isDigitCh b && isDigitCh c && isDigitCh d then
        match (tail.dropWhile isPySpace), (tail.takeWhile isPySpace) with
        | u :: v :: _, ws =>
          if isUpperCh u && isUpperCh v then
            some (a :: b :: c :: d :: (ws ++ [u, v]))
          else searchPostal rest
        | _, _ => searchPostal rest
      else searchPostal rest
    | _ => none

/-- `re.search(r'\b([A-G](\+{1,3})?)\b', s)`: group 1 of the leftmost match.
After `k ≥ 1` plus signs the final `\b` sits after a non-word `+`, so it
holds only before a word character; with zero plus signs it sits after the
letter, holding before a non-word character or the end.  The engine is
greedy, so the plus-run variant is preferred when both succeed. -/
def searchEnergyGo : Bool → List Char → Option (List Char)
  | _, [] => none
  | prevW, c :: rest =>
    if !prevW && 'A' ≤ c && c ≤ 'G' then
      let pl := rest.takeWhile (· = '+')
      let after := rest.dropWhile (· = '+')
      if 1 ≤ pl.length && pl.length ≤ 3
          && (match after with | x :: _ => isWordCh x | [] => false) then
        some (c :: pl)
      else if (match rest with | [] => true | x :: _ => !isWordCh x) then
        some [c]
      else searchEnergyGo true rest
    else searchEnergyGo (isWordCh c) rest

/-- `re.match(r'^[A-Z]+ [A-Z] \d+', s)`: does the cadastral pattern match at
the start?  (`[A-Z]+` cannot backtrack: a shorter take leaves an uppercase
letter where the literal space is required.) -/
def cadastralOk (l : List Char) : Bool :=
  let us := l.takeWhile isUpperCh
  !us.isEmpty &&
    (match l.dropWhile isUpperCh with
     | ' ' :: u :: ' ' :: d :: _ => isUpperCh u && isDigitCh d
     | _ => false)

/-- `re.search(r'^/[a-z\-]+/\d+[a-z]+/', href)`: the anchored listing-link
path shape. -/
def hrefOk (l : List Char) : Bool :=
  match l with
  | '/' :: r =>
    let seg := r.takeWhile isLowerDash
    let r1 := r.dropWhile isLowerDash
    !seg.isEmpty &&
      (match r1 with
       | '/' :: r2 =>
         let ds := r2.takeWhile isDigitCh
         let r3 := r2.dropWhile isDigitCh
         let ls := r3.takeWhile isLowerCh
         !ds.isEmpty && !ls.isEmpty &&
           ((r3.dropWhile isLowerCh).head? = some '/')
       | _ => false)
  | _ => false

/-- One attempt of `Resultaten?\s*(\d+)-(\d+)\s*van\s*([\d.]+)` at the
current position: the three groups on success.  Every quantified class is
disjoint from what follows it, so maximal munch replays the engine. -/
def matchResultWin (l : List Char) : Option (List Char × List Char × List Char) :=
  if ("Resultate".data).isPrefixOf l then
    let r1 := dropN 9 l
    let r2 := match r1 with | 'n' :: t => t | _ => r1
    let r3 := r2.dropWhile isPySpace
    let d1 := r3.takeWhile isDigitCh
    let r4 := r3.dropWhile isDigitCh
    if !d1.isEmpty then
      match r4 with
      | '-' :: r5 =>
        let d2 := r5.takeWhile isDigitCh
        let r6 := r5.dropWhile isDigitCh
        let r7 := r6.dropWhile isPySpace
        if !d2.isEmpty && ("van".data).isPrefixOf r7 then
          let r8 := (dropN 3 r7).dropWhile isPySpace
          let d3 := r8.takeWhile isDigitDot
          if !d3.isEmpty then some (d1, d2, d3) else none
        else none
      | _ => none
    else none
  else none

/-- `re.search` of the results-window pattern: leftmost match. -/
def searchResultWin : List Char → Option (List Char × List Char × List Char)
  | [] => none
  | c :: rest =>
    match matchResultWin (c :: rest) with
    | some g => some g
    | none => searchResultWin rest

/-! ## Static configuration (`config.py`) -/

/-- `BASE_URL`. -/
def BASE_URL : String := "https://huispedia.nl"

/-- `SEARCH_URL`. -/
def SEARCH_URL : String := BASE_URL ++ "/koopwoningen"

/-- `LOCATIONS`: the supported Dutch cities (identity slugs). -/
def LOCATIONS : List (String × String) :=
  ["amsterdam", "rotterdam", "den-haag", "utrecht", "eindhoven", "groningen",
   "tilburg", "almere", "breda", "nijmegen", "haarlem", "arnhem", "enschede",
   "amersfoort", "zaanstad", "apeldoorn", "hoofddorp", "maastricht", "leiden",
   "dordrecht", "zoetermeer", "zwolle", "deventer", "delft", "alkmaar"
  ].map (fun s => (s, s))

/-- `PROPERTY_TYPES`. -/
def PROPERTY_TYPES : List (String × String) :=
  [("all", ""), ("apartment", "appartement"), ("house", "woonhuis")]

/-- `dict.get(k, d)` on an association list. -/
def dictGetD (d : List (String × String)) (k : String) (dflt : String) : String :=
  match d.find? (fun kv => kv.1 = k) with
  | some kv => kv.2
  | none => dflt

/-! ## Field extractors (`utils.py`) -/

/-- The price-qualifier classification inside `parse_price`: `"k.k."` wins
over `"v.o.n."`, case-insensitive substring match. -/
def priceQualifier (l : List Char) : String :=
  if containsSub (pyLower l) "k.k.".data then "k.k."
  else if containsSub (pyLower l) "v.o.n.".data then "v.o.n."
  else ""

/-- `utils.parse_price`: `(value, qualifier)`; commas become dots before the
search, dots are stripped from the matched group before `int()`. -/
def parse_price (s : String) : Option Nat × String :=
  if s = "" then (none, "")
  else
    let pt := priceQualifier s.data
    match searchEuroNum (s.data.map (fun c => if c = ',' then '.' else c)) with
    | some g =>
      match digitsToNat (g.filter (fun c => c ≠ '.')) with
      | some v => (some v, pt)
      | none => (none, pt)
    | none => (none, pt)

/-- `utils.parse_area`. -/
def parse_area (s : String) : Option Nat :=
  if s = "" then none
  else
    match searchNumUnit areaUnit s.data with
    | some g => digitsToNat g
    | none => none

/-- `utils.parse_rooms`. -/
def parse_rooms (s : String) : Option Nat :=
  if s = "" then none
  else
    match searchNumUnit (wordUnit "kamer") s.data with
    | some g => digitsToNat g
    | none => none

/-- `utils.parse_bedrooms`. -/
def parse_bedrooms (s : String) : Option Nat :=
  if s = "" then none
  else
    match searchNumUnit (wordUnit "slaapkamer") s.data with
    | some g => digitsToNat g
    | none => none

/-- `utils.parse_year`. -/
def parse_year (s : String) : Option Nat :=
  if s = "" then none else searchYearGo false s.data

/-- `utils.extract_listing_id`. -/
def extract_listing_id (url : String) : String :=
  if url = "" then ""
  else
    let u := replaceAll url.data BASE_URL.data []
    let parts := (pySplit '/' (pyStripCh '/' u)).filter (fun p => !p.isEmpty)
    if 4 ≤ parts.length then strOf (List.intercalate "-".data (parts.take 4))
    else strOf (replaceAll (pyStripCh '/' u) "/".data "-".data)

/-! ## The document model (BeautifulSoup trees) -/

mutual
/-- A rendered-HTML node: a text fragment or an element with a tag name,
attributes and children. -/
inductive Node where
  | text : String → Node
  | elem : String → List (String × String) → NodeList → Node
/-- Children of an element, in document order. -/
inductive NodeList where
  | nil : NodeList
  | cons : Node → NodeList → NodeList
end

/-- Build a `NodeList` from a `List Node`. -/
def NodeList.ofList : List Node → NodeList
  | [] => .nil
  | n :: t => .cons n (NodeList.ofList t)

mutual
/-- All string descendants of a node, in document order (the node's own
string if it is a text node). -/
def nodeStrings : Node → List (List Char)
  | .text s => [s.data]
  | .elem _ _ cs => listStrings cs
/-- String descendants of a forest. -/
def listStrings : NodeList → List (List Char)
  | .nil => []
  | .cons c cs => nodeStrings c ++ listStrings cs
end

mutual
/-- Strict descendants of a node satisfying `p`, in document order
(pre-order), as `find_all` returns them. -/
def elemsUnder (p : Node → Bool) : Node → List Node
  | .text _ => []
  | .elem _ _ cs => elemsIn p cs
/-- Matching nodes of a forest, each before its own descendants. -/
def elemsIn (p : Node → Bool) : NodeList → List Node
  | .nil => []
  | .cons c cs => (if p c then [c] else []) ++ elemsUnder p c ++ elemsIn p cs
end

/-- Is the node an element with this tag? -/
def isTag (t : String) : Node → Bool
  | .elem tag _ _ => tag = t
  | .text _ => false

/-- `tag.get(attr)`. -/
def attrGet (n : Node) (k : String) : Option String :=
  match n with
  | .elem _ attrs _ => (attrs.find? (fun kv => kv.1 = k)).map (·.2)
  | .text _ => none

/-- `soup.find_all(t)`. -/
def elemsTag (t : String) (n : Node) : List Node := elemsUnder (isTag t) n

/-- `get_text()`: concatenation of all descendant strings. -/
def getTextRaw (n : Node) : List Char := (nodeStrings n).flatten

/-- `get_text(strip=True)`: stripped descendant strings, empties skipped,
joined without separator. -/
def getTextStrip (n : Node) : List Char :=
  (((nodeStrings n).map pyStrip).filter (fun s => !s.isEmpty)).flatten

/-- `get_text(" ", strip=True)`: stripped descendant strings, empties
skipped, joined by one space. -/
def getTextSpStrip (n : Node) : List Char :=
  List.intercalate " ".data (((nodeStrings n).map pyStrip).filter (fun s => !s.isEmpty))

/-! ## Card Parser (`utils.parse_property_cards`) -/

/-- The per-card dictionary produced by the Card Parser (a `ListingSummary`). -/
structure CardData where
  url : String
  listing_id : String
  street_address : String
  location : String
  price : Option Nat
  price_type : String
  living_area : Option Nat
  plot_size : Option Nat
  rooms : Option Nat
  value_comparison : String
  agent_name : String
deriving DecidableEq, Repr

/-- The indexed area-assignment loop of `parse_property_cards`: the `i`-th
matching text sets `living_area` when `i = 0`, `plot_size` when it mentions
`perceel` or `i = 1`; a falsy parse (`None` or `0`) is skipped entirely. -/
def assignAreas : Nat → List (List Char) → Option Nat × Option Nat → Option Nat × Option Nat
  | _, [], st => st
  | i, t :: rest, (la, ps) =>
    let st :=
      match parse_area (strOf t) with
      | some v =>
        if v ≠ 0 then
          if i = 0 then (some v, ps)
          else if containsSub (pyLower t) "perceel".data || i = 1 then (la, some v)
          else (la, ps)
        else (la, ps)
      | none => (la, ps)
    assignAreas (i + 1) rest st

/-- The reversed-`div` scan for an agent name: first stripped text longer
than 3 characters not starting with `€`, not containing `m²`, and free of
the four disqualifying substrings. -/
def findAgent : List Node → String
  | [] => ""
  | d :: rest =>
    let t := getTextStrip d
    if !t.isEmpty && t.length > 3 && t.head? ≠ some '€' && !containsSub t "m²".data
        && !(["kamer", "waarde", "prijs", "nieuw"].any
              (fun w => containsSub (pyLower t) w.data)) then
      strOf t
    else findAgent rest

/-- Does this node carry an `href` of listing-link shape?  (The `a`-element
filter of `article.find('a', href=re.compile(...))`.) -/
def listingLink (n : Node) : Bool :=
  isTag "a" n &&
    (match attrGet n "href" with
     | some h => hrefOk h.data
     | none => false)

/-- The body of the per-`article` loop of `parse_property_cards`: `none`
replays each `continue` (advertisement marker, missing or unusable link). -/
def processCard (article : Node) : Option CardData :=
  if (nodeStrings article).any (fun s => containsSubCI s "Advertentie".data) then none
  else
    match (elemsUnder listingLink article).head? with
    | none => none
    | some link =>
      let href := (attrGet link "href").getD ""
      if href = "" || "http".data.isPrefixOf href.data then none
      else
        let url := BASE_URL ++ href
        let address :=
          match (elemsTag "h2" article).head? with
          | some h2 => strOf (getTextStrip h2)
          | none => ""
        let location :=
          match (nodeStrings article).find? (fun s => (searchPostal s).isSome) with
          | some t => if t.isEmpty then "" else strOf (pyStrip t)
          | none => ""
        let pp : Option Nat × String :=
          match (nodeStrings article).find? (fun s => (searchEuroNum s).isSome) with
          | some t => if t.isEmpty then (none, "") else parse_price (strOf (pyStrip t))
          | none => (none, "")
        let areas :=
          assignAreas 0
            ((nodeStrings article).filter (fun s => (searchNumUnit areaUnit s).isSome))
            (none, none)
        let rooms :=
          match (nodeStrings article).find?
              (fun s => (searchNumUnit (wordUnit "kamer") s).isSome) with
          | some t => if t.isEmpty then none else parse_rooms (strOf t)
          | none => none
        let vc :=
          if (nodeStrings article).any (fun s => containsSubCI s "Onder de waarde".data) then
            "Onder de waarde"
          else if (nodeStrings article).any (fun s => containsSubCI s "Binnen de waarde".data) then
            "Binnen de waarde"
          else if (nodeStrings article).any (fun s => containsSubCI s "Boven de waarde".data) then
            "Boven de waarde"
          else ""
        some
          { url := url
            listing_id := extract_listing_id href
            street_address := address
            location := location
            price := pp.1
            price_type := pp.2
            living_area := areas.1
            plot_size := areas.2
            rooms := rooms
            value_comparison := vc
            agent_name := findAgent (elemsTag "div" article).reverse }

/-- `utils.parse_property_cards`: every `article` descendant in document
order, advertisement and link-less cards skipped. -/
def parse_property_cards (doc : Node) : List CardData :=
  (elemsTag "article" doc).filterMap processCard

/-! ## Pagination info (`utils.get_pagination_info`) -/

/-- One `nav` element's contribution: the parsed `(start, end, total)` of
the first regex match of its text, or `none` when the pattern does not
match or `int(total)` raises (`ValueError` on an all-dots group). -/
def parseNavWindow (t : List Char) : Option (Nat × Nat × Nat) :=
  match searchResultWin t with
  | some (d1, d2, d3) =>
    match digitsToNat (d3.filter (fun c => c ≠ '.')) with
    | some total => some ((digitsToNat d1).getD 0, (digitsToNat d2).getD 0, total)
    | none => none
  | none => none

/-- `utils.get_pagination_info`: first `nav` that parses, else `(0, 0, 0)`. -/
def get_pagination_info (doc : Node) : Nat × Nat × Nat :=
  (((elemsTag "nav" doc).filterMap (fun n => parseNavWindow (getTextRaw n)))).headD (0, 0, 0)

/-- A minimal genuine listing card. -/
def demoCard : Node :=
  .elem "article" [] (NodeList.ofList
    [.elem "a" [("href", "/amsterdam/1012ab/damstraat/1")] (NodeList.ofList
      [.elem "h2" [] (NodeList.ofList [.text "Damstraat 1"])]),
     .elem "div" [] (NodeList.ofList [.text "1012 AB Amsterdam"]),
     .elem "div" [] (NodeList.ofList [.text "€ 310.000 k.k."]),
     .elem "div" [] (NodeList.ofList [.text "112 m²"]),
     .elem "div" [] (NodeList.ofList [.text "4 kamers"]),
     .elem "div" [] (NodeList.ofList [.text "Onder de waarde"]),
     .elem "div" [] (NodeList.ofList [.text "Makelaardij Jansen"])])

/-- An advertisement card (same shape, marked `Advertentie`). -/
def demoAdCard : Node :=
  .elem "article" [] (NodeList.ofList
    [.text "Advertentie",
     .elem "a" [("href", "/utrecht/3511ab/domplein/2")] (NodeList.ofList
       [.elem "h2" [] (NodeList.ofList [.text "Domplein 2"])])])

/-! ## The record schema (`models.Property`) -/

/-- `models.Property`: the final output record (flat dataclass). -/
structure Property where
  url : String
  listing_id : String := ""
  title : String := ""
  street_address : String := ""
  postal_code : String := ""
  city : String := ""
  province : String := ""
  price : Option Nat := none
  price_per_sqm : Option Nat := none
  price_type : String := ""
  value_comparison : String := ""
  living_area : Option Nat := none
  plot_size : Option Nat := none
  volume : Option Nat := none
  rooms : Option Nat := none
  bedrooms : Option Nat := none
  bathrooms : Option Nat := none
  floors : Option Nat := none
  property_type : String := ""
  house_type : String := ""
  build_type : String := ""
  year_built : Option Nat := none
  renovation_year : Option Nat := none
  energy_label : String := ""
  insulation : String := ""
  heating : String := ""
  cv_year : Option Nat := none
  roof_type : String := ""
  kitchen_type : String := ""
  kitchen_amenities : String := ""
  bathroom_amenities : String := ""
  location_type : String := ""
  parking_type : String := ""
  maintenance_inside : String := ""
  maintenance_outside : String := ""
  status : String := ""
  listed_since : String := ""
  acceptance : String := ""
  cadastral_info : String := ""
  description : String := ""
  agent_name : String := ""
  agent_url : String := ""
  date_scraped : String
deriving DecidableEq, Repr

/-- A value of the flat field-name-to-value mapping: a string field or an
optional-integer field. -/
inductive FieldVal where
  | s : String → FieldVal
  | n : Option Nat → FieldVal
deriving DecidableEq, Repr

/-- `models.Property.to_dict`: the flat mapping, keys in source order. -/
def Property.to_dict (p : Property) : List (String × FieldVal) :=
  [("url", .s p.url),
   ("listing_id", .s p.listing_id),
   ("title", .s p.title),
   ("street_address", .s p.street_address),
   ("postal_code", .s p.postal_code),
   ("city", .s p.city),
   ("province", .s p.province),
   ("price", .n p.price),
   ("price_per_sqm", .n p.price_per_sqm),
   ("price_type", .s p.price_type),
   ("value_comparison", .s p.value_comparison),
   ("living_area", .n p.living_area),
   ("plot_size", .n p.plot_size),
   ("volume", .n p.volume),
   ("rooms", .n p.rooms),
   ("bedrooms", .n p.bedrooms),
   ("bathrooms", .n p.bathrooms),
   ("floors", .n p.floors),
   ("property_type", .s p.property_type),
   ("house_type", .s p.house_type),
   ("build_type", .s p.build_type),
   ("year_built", .n p.year_built),
   ("renovation_year", .n p.renovation_year),
   ("energy_label", .s p.energy_label),
   ("insulation", .s p.insulation),
   ("heating", .s p.heating),
   ("cv_year", .n p.cv_year),
   ("roof_type", .s p.roof_type),
   ("kitchen_type", .s p.kitchen_type),
   ("kitchen_amenities", .s p.kitchen_amenities),
   ("bathroom_amenities", .s p.bathroom_amenities),
   ("location_type", .s p.location_type),
   ("parking_type", .s p.parking_type),
   ("maintenance_inside", .s p.maintenance_inside),
   ("maintenance_outside", .s p.maintenance_outside),
   ("status", .s p.status),
   ("listed_since", .s p.listed_since),
   ("acceptance", .s p.acceptance),
   ("cadastral_info", .s p.cadastral_info),
   ("description", .s p.description),
   ("agent_name", .s p.agent_name),
   ("agent_url", .s p.agent_url),
   ("date_scraped", .s p.date_scraped)]

/-- First value stored under a key of the flat mapping, as a string field. -/
def dGetS (d : List (String × FieldVal)) (k : String) : Option String :=
  match d.find? (fun kv => kv.1 = k) with
  | some (_, .s v) => some v
  | _ => none

/-- First value stored under a key of the flat mapping, as an
optional-integer field. -/
def dGetN (d : List (String × FieldVal)) (k : String) : Option (Option Nat) :=
  match d.find? (fun kv => kv.1 = k) with
  | some (_, .n v) => some v
  | _ => none

/-- Modelled from the spec: the repository serialises records through
`Property.to_dict` but contains no inverse; the spec's round-trip property
("converting a PropertyRecord to its flat mapping and back preserves every
field value exactly") presupposes a reconstruction that reads each named
field back from the mapping.  This is that reconstruction (a missing or
ill-typed key falls back to the field's default). -/
def Property.of_dict (d : List (String × FieldVal)) : Property :=
  { url := (dGetS d "url").getD ""
    listing_id := (dGetS d "listing_id").getD ""
    title := (dGetS d "title").getD ""
    street_address := (dGetS d "street_address").getD ""
    postal_code := (dGetS d "postal_code").getD ""
    city := (dGetS d "city").getD ""
    province := (dGetS d "province").getD ""
    price := (dGetN d "price").getD none
    price_per_sqm := (dGetN d "price_per_sqm").getD none
    price_type := (dGetS d "price_type").getD ""
    value_comparison := (dGetS d "value_comparison").getD ""
    living_area := (dGetN d "living_area").getD none
    plot_size := (dGetN d "plot_size").getD none
    volume := (dGetN d "volume").getD none
    rooms := (dGetN d "rooms").getD none
    bedrooms := (dGetN d "bedrooms").getD none
    bathrooms := (dGetN d "bathrooms").getD none
    floors := (dGetN d "floors").getD none
    property_type := (dGetS d "property_type").getD ""
    house_type := (dGetS d "house_type").getD ""
    build_type := (dGetS d "build_type").getD ""
    year_built := (dGetN d "year_built").getD none
    renovation_year := (dGetN d "renovation_year").getD none
    energy_label := (dGetS d "energy_label").getD ""
    insulation := (dGetS d "insulation").getD ""
    heating := (dGetS d "heating").getD ""
    cv_year := (dGetN d "cv_year").getD none
    roof_type := (dGetS d "roof_type").getD ""
    kitchen_type := (dGetS d "kitchen_type").getD ""
    kitchen_amenities := (dGetS d "kitchen_amenities").getD ""
    bathroom_amenities := (dGetS d "bathroom_amenities").getD ""
    location_type := (dGetS d "location_type").getD ""
    parking_type := (dGetS d "parking_type").getD ""
    maintenance_inside := (dGetS d "maintenance_inside").getD ""
    maintenance_outside := (dGetS d "maintenance_outside").getD ""
    status := (dGetS d "status").getD ""
    listed_since := (dGetS d "listed_since").getD ""
    acceptance := (dGetS d "acceptance").getD ""
    cadastral_info := (dGetS d "cadastral_info").getD ""
    description := (dGetS d "description").getD ""
    agent_name := (dGetS d "agent_name").getD ""
    agent_url := (dGetS d "agent_url").getD ""
    date_scraped := (dGetS d "date_scraped").getD "" }

/-! ## Detail Enricher (`utils.parse_detail_page`) -/

/-- `int(match.group(1).replace('.', ''))` after a `€\s*([\d.]+)` search:
`none` when there is no match or the group is dots only. -/
def euroInt (t : List Char) : Option Nat :=
  match searchEuroNum t with
  | some g => digitsToNat (g.filter (fun c => c ≠ '.'))
  | none => none

/-- `(\d+)\s*<unit>` search followed by `int()`. -/
def numUnitInt (unitOk : List Char → Bool) (t : List Char) : Option Nat :=
  match searchNumUnit unitOk t with
  | some g => digitsToNat g
  | none => none

/-- `replace(label, '').strip()`, the label-stripping idiom of the
detail-page scan. -/
def stripLabel (label : String) (t : List Char) : String :=
  strOf (pyStrip (replaceAll t label.data []))

/-!
The body of the per-`li` loop of `parse_detail_page` is a sequence of
independent `if`s over the same item text, in source order; several may
fire on one item.  Each branch is its own definition and `processItem`
composes them in order.
-/

/-- `'Vraagprijs' in text and '€' in text`: asking price (a falsy parse —
`None` or `0` — assigns nothing). -/
def itemVraagprijs (t : List Char) (p : Property) : Property :=
  if containsSub t "Vraagprijs".data && containsSub t "€".data
      && pyOptTrue (parse_price (strOf t)).1 then
    { p with price := (parse_price (strOf t)).1
             price_type := (parse_price (strOf t)).2 }
  else p

/-- `'Vraagprijs per m' in text`: price per m² (assigned only when the
numeric group parses). -/
def itemPerSqm (t : List Char) (p : Property) : Property :=
  if containsSub t "Vraagprijs per m".data && (euroInt t).isSome then
    { p with price_per_sqm := euroInt t } else p

/-- `'Aangeboden sinds' in text`. -/
def itemListedSince (t : List Char) (p : Property) : Property :=
  if containsSub t "Aangeboden sinds".data then
    { p with listed_since := stripLabel "Aangeboden sinds" t } else p

/-- `'Status' in text`. -/
def itemStatus (t : List Char) (p : Property) : Property :=
  if containsSub t "Status".data then
    { p with status := stripLabel "Status" t } else p

/-- `'Aanvaarding' in text`. -/
def itemAanvaarding (t : List Char) (p : Property) : Property :=
  if containsSub t "Aanvaarding".data then
    { p with acceptance := stripLabel "Aanvaarding" t } else p

/-- `'Soort woonhuis' in text`: comma-split into property and house type. -/
def itemSoortWoonhuis (t : List Char) (p : Property) : Property :=
  if containsSub t "Soort woonhuis".data then
    if (pySplit ',' (pyStrip (replaceAll t "Soort woonhuis".data []))).length > 1 then
      { p with
        property_type :=
          strOf (pyStrip ((pySplit ',' (pyStrip (replaceAll t "Soort woonhuis".data []))).headD []))
        house_type :=
          strOf (pyStrip (((pySplit ',' (pyStrip (replaceAll t "Soort woonhuis".data []))).drop 1).headD [])) }
    else
      { p with
        property_type :=
          strOf (pyStrip ((pySplit ',' (pyStrip (replaceAll t "Soort woonhuis".data []))).headD [])) }
  else p

/-- `'Soort bouw' in text`. -/
def itemSoortBouw (t : List Char) (p : Property) : Property :=
  if containsSub t "Soort bouw".data then
    { p with build_type := stripLabel "Soort bouw" t } else p

/-- `'Bouwjaar' in text and 'Cv-ketel' not in text`: build year
(assigned unconditionally, possibly `None`). -/
def itemBouwjaar (t : List Char) (p : Property) : Property :=
  if containsSub t "Bouwjaar".data && !containsSub t "Cv-ketel".data then
    { p with year_built := parse_year (strOf t) } else p

/-- `'Renovatiejaar' in text`. -/
def itemRenovatiejaar (t : List Char) (p : Property) : Property :=
  if containsSub t "Renovatiejaar".data then
    { p with renovation_year := parse_year (strOf t) } else p

/-- `'Soort dak' in text`. -/
def itemSoortDak (t : List Char) (p : Property) : Property :=
  if containsSub t "Soort dak".data then
    { p with roof_type := stripLabel "Soort dak" t } else p

/-- `'Energielabel' in text`: assigned only when the label pattern matches. -/
def itemEnergielabel (t : List Char) (p : Property) : Property :=
  if containsSub t "Energielabel".data && (searchEnergyGo false t).isSome then
    { p with energy_label := strOf ((searchEnergyGo false t).getD []) } else p

/-- `'Isolatie' in text`. -/
def itemIsolatie (t : List Char) (p : Property) : Property :=
  if containsSub t "Isolatie".data then
    { p with insulation := stripLabel "Isolatie" t } else p

/-- `'Verwarming' in text`. -/
def itemVerwarming (t : List Char) (p : Property) : Property :=
  if containsSub t "Verwarming".data then
    { p with heating := stripLabel "Verwarming" t } else p

/-- `'Cv-ketel bouwjaar' in text`. -/
def itemCvKetel (t : List Char) (p : Property) : Property :=
  if containsSub t "Cv-ketel bouwjaar".data then
    { p with cv_year := parse_year (strOf t) } else p

/-- `'Woonoppervlakte' in text`: living area (assigned unconditionally,
possibly `None`). -/
def itemWoonoppervlakte (t : List Char) (p : Property) : Property :=
  if containsSub t "Woonoppervlakte".data then
    { p with living_area := parse_area (strOf t) } else p

/-- `'Perceeloppervlakte' in text`: plot size (assigned unconditionally,
possibly `None`). -/
def itemPerceel (t : List Char) (p : Property) : Property :=
  if containsSub t "Perceeloppervlakte".data then
    { p with plot_size := parse_area (strOf t) } else p

/-- `'Inhoud' in text`: volume via `(\d+)\s*m[³3]`. -/
def itemInhoud (t : List Char) (p : Property) : Property :=
  if containsSub t "Inhoud".data && (numUnitInt volumeUnit t).isSome then
    { p with volume := numUnitInt volumeUnit t } else p

/-- `'Aantal kamers' in text`: rooms and bedrooms (both assigned
unconditionally, possibly `None`). -/
def itemAantalKamers (t : List Char) (p : Property) : Property :=
  if containsSub t "Aantal kamers".data then
    { p with rooms := parse_rooms (strOf t), bedrooms := parse_bedrooms (strOf t) }
  else p

/-- `'Aantal badkamers' in text`. -/
def itemBadkamers (t : List Char) (p : Property) : Property :=
  if containsSub t "Aantal badkamers".data
      && (numUnitInt (wordUnit "badkamer") t).isSome then
    { p with bathrooms := numUnitInt (wordUnit "badkamer") t } else p

/-- `'Aantal woonlagen' in text`. -/
def itemWoonlagen (t : List Char) (p : Property) : Property :=
  if containsSub t "Aantal woonlagen".data
      && (numUnitInt (wordUnit "woonla") t).isSome then
    { p with floors := numUnitInt (wordUnit "woonla") t } else p

/-- `'Keuken' in text and 'voorzieningen' not in text.lower()`. -/
def itemKeuken (t : List Char) (p : Property) : Property :=
  if containsSub t "Keuken".data
      && !containsSub (pyLower t) "voorzieningen".data then
    { p with kitchen_type := stripLabel "Keuken" t } else p

/-- `'Keukenvoorzieningen' in text`. -/
def itemKeukenvoorz (t : List Char) (p : Property) : Property :=
  if containsSub t "Keukenvoorzieningen".data then
    { p with kitchen_amenities := stripLabel "Keukenvoorzieningen" t } else p

/-- `'Badkamervoorzieningen' in text`. -/
def itemBadkamervoorz (t : List Char) (p : Property) : Property :=
  if containsSub t "Badkamervoorzieningen".data then
    { p with bathroom_amenities := stripLabel "Badkamervoorzieningen" t } else p

/-- `'Ligging woning' in text`. -/
def itemLigging (t : List Char) (p : Property) : Property :=
  if containsSub t "Ligging woning".data then
    { p with location_type := stripLabel "Ligging woning" t } else p

/-- `'Soort parkeergelegenheid' in text`. -/
def itemParkeren (t : List Char) (p : Property) : Property :=
  if containsSub t "Soort parkeergelegenheid".data then
    { p with parking_type := stripLabel "Soort parkeergelegenheid" t } else p

/-- `text.startswith('Binnen') and 'Buiten' not in text`. -/
def itemBinnen (t : List Char) (p : Property) : Property :=
  if "Binnen".data.isPrefixOf t && !containsSub t "Buiten".data then
    { p with maintenance_inside := stripLabel "Binnen" t } else p

/-- `text.startswith('Buiten')`. -/
def itemBuiten (t : List Char) (p : Property) : Property :=
  if "Buiten".data.isPrefixOf t then
    { p with maintenance_outside := stripLabel "Buiten" t } else p

/-- `'Oppervlakte' not in text` and the cadastral shape matches at the
start. -/
def itemKadaster (t : List Char) (p : Property) : Property :=
  if !containsSub t "Oppervlakte".data && cadastralOk t then
    { p with cadastral_info := strOf t } else p

/-- The full per-`li` branch sequence, in source order. -/
def processItem (t : List Char) (p : Property) : Property :=
  p |> itemVraagprijs t |> itemPerSqm t |> itemListedSince t |> itemStatus t
    |> itemAanvaarding t |> itemSoortWoonhuis t |> itemSoortBouw t
    |> itemBouwjaar t |> itemRenovatiejaar t |> itemSoortDak t
    |> itemEnergielabel t |> itemIsolatie t |> itemVerwarming t
    |> itemCvKetel t |> itemWoonoppervlakte t |> itemPerceel t
    |> itemInhoud t |> itemAantalKamers t |> itemBadkamers t
    |> itemWoonlagen t |> itemKeuken t |> itemKeukenvoorz t
    |> itemBadkamervoorz t |> itemLigging t |> itemParkeren t
    |> itemBinnen t |> itemBuiten t |> itemKadaster t

/-- The description heuristic: first `div` whose spaced, stripped text is
over 500 characters, with no `ul` or `nav` descendant and at least one
housing keyword. -/
def descOk (d : Node) : Bool :=
  let t := getTextSpStrip d
  t.length > 500 && (elemsTag "ul" d).isEmpty && (elemsTag "nav" d).isEmpty
    && ["woning", "kamer", "keuken", "tuin", "badkamer"].any
        (fun w => containsSub (pyLower t) w.data)

/-- An agent-office link: an `a` element whose `href` contains the
`/makelaars/kantoor/` path fragment. -/
def agentLink (n : Node) : Bool :=
  isTag "a" n &&
    (match attrGet n "href" with
     | some h => containsSub h.data "/makelaars/kantoor/".data
     | none => false)

/-- One breadcrumb link's contribution to the city field. -/
def cityStep (p : Property) (a : Node) : Property :=
  let href := (attrGet a "href").getD ""
  if containsSub href.data "/koopwoningen/".data then
    let city := pyStripCh '/' (replaceAll href.data "/koopwoningen/".data [])
    if !city.isEmpty && city ≠ "provincie-".data then
      { p with city := strOf (pyTitle (replaceAll city "-".data " ".data)) }
    else p
  else p

/-- Stage 1 of `parse_detail_page`: the page title. -/
def detailTitle (doc : Node) (p : Property) : Property :=
  match (elemsTag "title" doc).head? with
  | some ti => { p with title := strOf (getTextStrip ti) }
  | none => p

/-- Stage 2 of `parse_detail_page`: the `li` feature scan. -/
def detailItems (doc : Node) (p : Property) : Property :=
  ((elemsTag "li" doc).map getTextSpStrip).foldl (fun p t => processItem t p) p

/-- Stage 3 of `parse_detail_page`: the description heuristic (first
qualifying `div`, truncated to 2000 characters). -/
def detailDesc (doc : Node) (p : Property) : Property :=
  match (elemsTag "div" doc).find? descOk with
  | some d => { p with description := strOf ((getTextSpStrip d).take 2000) }
  | none => p

/-- Stage 4 of `parse_detail_page`: the agent-office link, overwriting the
summary-stage agent name. -/
def detailAgent (doc : Node) (p : Property) : Property :=
  match (elemsUnder agentLink doc).head? with
  | some a => { p with agent_name := strOf (getTextStrip a)
                       agent_url := BASE_URL ++ (attrGet a "href").getD "" }
  | none => p

/-- Stage 5 of `parse_detail_page`: the breadcrumb city scan (first `nav`
carrying an `aria-label`). -/
def detailCity (doc : Node) (p : Property) : Property :=
  match (elemsUnder (fun n => isTag "nav" n && (attrGet n "aria-label").isSome) doc).head? with
  | some bc => (elemsTag "a" bc).foldl cityStep p
  | none => p

/-- Stage 6 of `parse_detail_page`: the postal-code text search (the
`replace(' ', ' ')` of the source is the identity). -/
def detailPostal (doc : Node) (p : Property) : Property :=
  match (nodeStrings doc).find? (fun s => (searchPostal s).isSome) with
  | some t =>
    match searchPostal t with
    | some g => { p with postal_code := strOf (replaceAll g " ".data " ".data) }
    | none => p
  | none => p

/-- `utils.parse_detail_page`: the six stages in source order. -/
def parse_detail_page (doc : Node) (prop : Property) : Property :=
  prop |> detailTitle doc |> detailItems doc |> detailDesc doc
       |> detailAgent doc |> detailCity doc |> detailPostal doc

/-! ## The scraper (`scraper.py`) -/

/-- `HuispediaScraper._build_list_url`: page 1 has no suffix, page `N > 1`
appends `/N_p`.  (The `search_state` dictionary built in the source is
dead code: it is never used.) -/
def build_list_url (location : String) (page : Nat) (property_type : String) : String :=
  let url := SEARCH_URL ++ "/" ++ location
  let url := if property_type ≠ "" then url ++ "/" ++ property_type else url
  if page > 1 then url ++ "/" ++ toString page ++ "_p" else url

/-- `HuispediaScraper._fetch_property_details` over a transport oracle
(`transport url = none` models a failed fetch): build a `Property` from the
summary dictionary, split its location into postal code and city, then
enrich from the detail page.  `now` models the ambient clock read by the
`date_scraped` default. -/
def fetch_property_details (transport : String → Option Node) (now : String)
    (pd : CardData) : Option Property :=
  if pd.url = "" then none
  else
    match transport pd.url with
    | none => none
    | some doc =>
      let prop : Property :=
        { url := pd.url
          listing_id := pd.listing_id
          street_address := pd.street_address
          price := pd.price
          price_type := pd.price_type
          living_area := pd.living_area
          plot_size := pd.plot_size
          rooms := pd.rooms
          value_comparison := pd.value_comparison
          agent_name := pd.agent_name
          date_scraped := now }
      let prop :=
        if pd.location ≠ "" then
          let parts := pySplitWs pd.location.data
          if parts.length ≥ 3 then
            { prop with
              postal_code := strOf (List.intercalate " ".data (parts.take 2))
              city := strOf (List.intercalate " ".data (parts.drop 2)) }
          else prop
        else prop
      some (parse_detail_page doc prop)

/-- The minimally-populated record built when detail fetching is off. -/
def basicProperty (now : String) (pd : CardData) : Property :=
  { url := pd.url
    listing_id := pd.listing_id
    street_address := pd.street_address
    price := pd.price
    price_type := pd.price_type
    living_area := pd.living_area
    plot_size := pd.plot_size
    rooms := pd.rooms
    value_comparison := pd.value_comparison
    agent_name := pd.agent_name
    date_scraped := now }

/-- The detail-enrichment phase: every summary through
`fetch_property_details`, keeping the successes.  The Python pool
(`ThreadPoolExecutor` + `as_completed`) runs these independent,
per-record calls concurrently and collects results in completion order;
the model fixes submission order, which the claims do not constrain. -/
def detailPhase (transport : String → Option Node) (now : String)
    (props : List CardData) : List Property :=
  props.filterMap (fetch_property_details transport now)

/-- The `while True` pagination loop of `HuispediaScraper.scrape`, with the
stop conditions in source order.  Returns the accumulated summaries and
the list of page numbers for which a fetch was issued.  `fuel` bounds the
iteration count (the Python loop has no such bound; every theorem below
holds for every fuel).  Note the Python truthiness guards: `max_pages=0`
and `limit=0` behave like `None`. -/
def scrapeLoop (transport : String → Option Node) (loc pf : String)
    (maxPages limit : Option Nat) :
    Nat → Nat → List CardData → List CardData × List Nat
  | 0, _, acc => (acc, [])
  | fuel + 1, page, acc =>
    if pyOptTrue maxPages = true ∧ page > maxPages.getD 0 then (acc, [])
    else if pyOptTrue limit = true ∧ acc.length ≥ limit.getD 0 then (acc, [])
    else
      match transport (build_list_url loc page pf) with
      | none => (acc, [page])
      | some doc =>
        if parse_property_cards doc = [] then (acc, [page])
        else if (get_pagination_info doc).2.1 ≥ (get_pagination_info doc).2.2
            ∨ (parse_property_cards doc).length < 10 then
          (acc ++ parse_property_cards doc, [page])
        else
          ((scrapeLoop transport loc pf maxPages limit fuel (page + 1)
              (acc ++ parse_property_cards doc)).1,
           page :: (scrapeLoop transport loc pf maxPages limit fuel (page + 1)
              (acc ++ parse_property_cards doc)).2)

/-- The page numbers fetched by a full run (starting at page 1 with an
empty accumulator). -/
def scrapedPages (transport : String → Option Node) (loc pf : String)
    (maxPages limit : Option Nat) (fuel : Nat) : List Nat :=
  (scrapeLoop transport loc pf maxPages limit fuel 1 []).2

/-- `HuispediaScraper.scrape`: location normalisation, the pagination
loop, the limit truncation, and either the detail phase or the basic
conversion. -/
def scrape (transport : String → Option Node) (now : String)
    (location property_type : String) (maxPages limit : Option Nat)
    (fetch_details : Bool) (fuel : Nat) : List Property :=
  let locationKey := strOf (replaceAll (pyLower location.data) " ".data "-".data)
  let locationSlug := dictGetD LOCATIONS locationKey locationKey
  let propFilter := dictGetD PROPERTY_TYPES property_type ""
  let all := (scrapeLoop transport locationSlug propFilter maxPages limit fuel 1 []).1
  let all := if pyOptTrue limit then all.take (limit.getD 0) else all
  if fetch_details && !all.isEmpty then detailPhase transport now all
  else all.map (basicProperty now)

/-- A one-card listing page reporting window `51-58 of 58`. -/
def demoLastPage : Node :=
  .elem "body" [] (NodeList.ofList
    [demoCard,
     .elem "nav" [] (NodeList.ofList [.text "Resultaten 51-58 van 58"])])

/-! ## Concrete fixtures used by witnesses and counterexamples -/

/-- The summary of `demoCard`, as the Card Parser produces it. -/
def demoSummaryA : CardData :=
  { url := "https://huispedia.nl/amsterdam/1012ab/damstraat/1"
    listing_id := "amsterdam-1012ab-damstraat-1"
    street_address := "Damstraat 1"
    location := "1012 AB Amsterdam"
    price := some 310000
    price_type := "k.k."
    living_area := some 112
    plot_size := none
    rooms := some 4
    value_comparison := "Onder de waarde"
    agent_name := "Makelaardij Jansen" }

/-- A second genuine card, sparser than `demoCard`. -/
def demoCard2 : Node :=
  .elem "article" [] (NodeList.ofList
    [.elem "a" [("href", "/utrecht/3511ab/domplein/2")] (NodeList.ofList
      [.elem "h2" [] (NodeList.ofList [.text "Domplein 2"])])])

/-- The summary of `demoCard2`. -/
def demoSummaryB : CardData :=
  { url := "https://huispedia.nl/utrecht/3511ab/domplein/2"
    listing_id := "utrecht-3511ab-domplein-2"
    street_address := "Domplein 2"
    location := ""
    price := none
    price_type := ""
    living_area := none
    plot_size := none
    rooms := none
    value_comparison := ""
    agent_name := "" }

/-- A transport that fails exactly on `demoSummaryB`'s detail URL and
returns an empty page elsewhere. -/
def demoDetailTransport : String → Option Node :=
  fun u =>
    if u = "https://huispedia.nl/utrecht/3511ab/domplein/2" then none
    else some (.elem "html" [] .nil)

/-- A listing page with ten cards and no pagination `nav` at all. -/
def demoTenPage : Node :=
  .elem "body" [] (NodeList.ofList (List.replicate 10 demoCard))

/-- A listing page with ten cards whose window says more results follow. -/
def demoMorePage : Node :=
  .elem "body" [] (NodeList.ofList (List.replicate 10 demoCard ++
    [.elem "nav" [] (NodeList.ofList [.text "Resultaten 1-10 van 58"])]))

/-- A detail page whose only `Woonoppervlakte` line item carries no m²
number. -/
def demoDetailDoc : Node :=
  .elem "html" [] (NodeList.ofList
    [.elem "ul" [] (NodeList.ofList
      [.elem "li" [] (NodeList.ofList [.text "Bouwjaar 1950"]),
       .elem "li" [] (NodeList.ofList [.text "Woonoppervlakte"])])])

/-! # Theorems

Helper lemmas first, then one theorem per claim (with a witness where the
theorem carries hypotheses).
-/

/-! ## Helper lemmas on the scanners -/

/-- A string without `€` has no currency-prefixed numeric token. -/
theorem searchEuroNum_of_not_mem : ∀ l : List Char, '€' ∉ l → searchEuroNum l = none := by
  intro l h
  induction l with
  | nil => rfl
  | cons c t ih =>
    have hc : c ≠ '€' := fun he => h (he ▸ List.mem_cons_self c t)
    have ht : '€' ∉ t := fun hm => h (List.mem_cons_of_mem c hm)
    simp [searchEuroNum, hc, ih ht]

/-- The comma-to-dot preprocessing of `parse_price` cannot introduce `€`. -/
theorem euro_not_mem_commaMap (l : List Char) (h : '€' ∉ l) :
    '€' ∉ l.map (fun c => if c = ',' then '.' else c) := by
  intro hm
  rcases List.mem_map.mp hm with ⟨c, hc, he⟩
  by_cases h' : c = ','
  · subst h'; simp at he
  · rw [if_neg h'] at he
    exact h (he ▸ hc)

/-- Membership in a `takeWhile` gives membership in the list. -/
theorem mem_of_mem_takeWhile {p : Char → Bool} :
    ∀ {l : List Char} {c : Char}, c ∈ l.takeWhile p → c ∈ l := by
  intro l
  induction l with
  | nil => intro c h; simp [List.takeWhile] at h
  | cons a t ih =>
    intro c h
    rw [List.takeWhile_cons] at h
    by_cases ha : p a
    · simp only [ha, if_pos] at h
      rcases List.mem_cons.mp h with h | h
      · exact h ▸ List.mem_cons_self a t
      · exact List.mem_cons_of_mem a (ih h)
    · simp [ha] at h

/-- Membership in a `takeWhile` satisfies the predicate. -/
theorem pred_of_mem_takeWhile {p : Char → Bool} :
    ∀ {l : List Char} {c : Char}, c ∈ l.takeWhile p → p c = true := by
  intro l
  induction l with
  | nil => intro c h; simp [List.takeWhile] at h
  | cons a t ih =>
    intro c h
    rw [List.takeWhile_cons] at h
    by_cases ha : p a
    · simp only [ha, if_pos] at h
      rcases List.mem_cons.mp h with h | h
      · exact h ▸ ha
      · exact ih h
    · simp [ha] at h

/-- Membership in a `dropWhile` gives membership in the list. -/
theorem mem_of_mem_dropWhile {p : Char → Bool} :
    ∀ {l : List Char} {c : Char}, c ∈ l.dropWhile p → c ∈ l := by
  intro l
  induction l with
  | nil => intro c h; simp [List.dropWhile] at h
  | cons a t ih =>
    intro c h
    rw [List.dropWhile_cons] at h
    by_cases ha : p a
    · simp only [ha, if_pos] at h
      exact List.mem_cons_of_mem a (ih h)
    · simp only [ha] at h
      exact h

/-- Characters of a successful `€`-number group come from the input and lie
in `[\d.]`. -/
theorem searchEuroNum_chars :
    ∀ l g : List Char, searchEuroNum l = some g →
      ∀ c ∈ g, c ∈ l ∧ isDigitDot c = true := by
  intro l
  induction l with
  | nil => intro g h; simp [searchEuroNum] at h
  | cons a t ih =>
    intro g h c hc
    rw [searchEuroNum] at h
    by_cases ha : a = '€'
    · simp only [ha, if_pos] at h
      by_cases hg : ((t.dropWhile isPySpace).takeWhile isDigitDot).isEmpty
      · simp only [hg] at h
        rcases ih g h c hc with ⟨hm, hd⟩
        exact ⟨List.mem_cons_of_mem a hm, hd⟩
      · simp only [hg] at h
        simp only [Bool.false_eq_true, if_false, Option.some.injEq] at h
        subst h
        refine ⟨List.mem_cons_of_mem a (mem_of_mem_dropWhile (mem_of_mem_takeWhile hc)),
          pred_of_mem_takeWhile hc⟩
    · simp only [ha, if_neg, Bool.false_eq_true] at h
      rcases ih g h c hc with ⟨hm, hd⟩
      exact ⟨List.mem_cons_of_mem a hm, hd⟩

/-- A digit-free string defeats every `(\d+)\s*<unit>` search. -/
theorem searchNumUnit_of_no_digit (u : List Char → Bool) :
    ∀ l : List Char, (∀ c ∈ l, isDigitCh c = false) → searchNumUnit u l = none := by
  intro l
  induction l with
  | nil => intro _; rfl
  | cons a t ih =>
    intro h
    have ha : isDigitCh a = false := h a (List.mem_cons_self a t)
    have ht : ∀ c ∈ t, isDigitCh c = false := fun c hc => h c (List.mem_cons_of_mem a hc)
    simp [searchNumUnit, ha, ih ht]

/-- A digit-free string defeats the year-at-position test. -/
theorem yearAt_of_no_digit (w : Bool) (l : List Char)
    (h : ∀ c ∈ l, isDigitCh c = false) : yearAt w l = none := by
  rcases l with _ | ⟨a, t⟩
  · rfl
  have ha : isDigitCh a = false := h a (List.mem_cons_self a t)
  have ha1 : (decide (a = '1')) = false :=
    decide_eq_false (fun he => by subst he; simp [isDigitCh] at ha)
  have ha2 : (decide (a = '2')) = false :=
    decide_eq_false (fun he => by subst he; simp [isDigitCh] at ha)
  rcases t with _ | ⟨b, t⟩
  · rfl
  rcases t with _ | ⟨c, t⟩
  · rfl
  rcases t with _ | ⟨d, t⟩
  · rfl
  simp [yearAt, ha1, ha2]

/-- A digit-free string defeats the year search. -/
theorem searchYearGo_of_no_digit :
    ∀ (l : List Char) (w : Bool), (∀ c ∈ l, isDigitCh c = false) →
      searchYearGo w l = none := by
  intro l
  induction l with
  | nil => intro w _; rfl
  | cons a t ih =>
    intro w h
    have ht : ∀ c ∈ t, isDigitCh c = false := fun c hc => h c (List.mem_cons_of_mem a hc)
    rw [searchYearGo, yearAt_of_no_digit w _ h]
    exact ih (isWordCh a) ht

/-- Without a `€` in the text, `parse_price` returns no value and just the
qualifier classification. -/
theorem parse_price_of_no_euro (s : String) (h : '€' ∉ s.data) :
    parse_price s = (none, priceQualifier s.data) := by
  by_cases hs : s = ""
  · subst hs; decide
  · simp only [parse_price, if_neg hs]
    rw [searchEuroNum_of_not_mem _ (euro_not_mem_commaMap _ h)]

/-- C1, counterexample: `"100 k.k."` contains no `€`, yet `parse_price`
returns `(none, "k.k.")`, not `(none, "")` — the qualifier classification
happens before (and independently of) the numeric extraction. -/
theorem parse_price_counterexample :
    ¬ ('€' ∈ "100 k.k.".data) ∧ parse_price "100 k.k." ≠ (none, "") := by decide

/-- C1, amended: the two exemplar price texts parse as claimed, and a text
without `€` yields `(none, q)` where `q` is the qualifier classification —
in particular `(none, "")` when the text mentions neither `k.k.` nor
`v.o.n.`. -/
theorem parse_price_spec :
    parse_price "€ 310.000 k.k." = (some 310000, "k.k.") ∧
    parse_price "€ 425.000 v.o.n." = (some 425000, "v.o.n.") ∧
    (∀ s : String, '€' ∉ s.data → parse_price s = (none, priceQualifier s.data)) ∧
    (∀ s : String, '€' ∉ s.data →
      containsSub (pyLower s.data) "k.k.".data = false →
      containsSub (pyLower s.data) "v.o.n.".data = false →
      parse_price s = (none, "")) := by
  refine ⟨by decide, by decide, fun s h => parse_price_of_no_euro s h, fun s h h1 h2 => ?_⟩
  rw [parse_price_of_no_euro s h]
  simp [priceQualifier, h1, h2]

/-- Witness for C1's amended theorem at concrete inputs. -/
theorem parse_price_spec_witness :
    ('€' ∉ "100 k.k.".data) ∧ parse_price "100 k.k." = (none, priceQualifier "100 k.k.".data) ∧
    ('€' ∉ "Damstraat 1".data) ∧ parse_price "Damstraat 1" = (none, "") :=
  ⟨by decide, parse_price_spec.2.2.1 "100 k.k." (by decide), by decide,
   parse_price_spec.2.2.2 "Damstraat 1" (by decide) (by decide) (by decide)⟩

/-- C5: converting a `Property` to its flat mapping and reconstructing from
that mapping restores every field; the conversion itself is a pure total
function of the record, so repeating it yields the identical mapping by
definition. -/
theorem property_to_dict_roundtrip (p : Property) :
    Property.of_dict p.to_dict = p := rfl

/-- C6: a summary whose detail fetch fails is dropped from the enriched
result set without affecting its siblings, and every returned record is the
successful enrichment of some input summary. -/
theorem detail_enrichment_isolates_failures (transport : String → Option Node)
    (now : String) :
    (∀ (xs ys : List CardData) (pd : CardData),
      fetch_property_details transport now pd = none →
        detailPhase transport now (xs ++ pd :: ys) =
          detailPhase transport now xs ++ detailPhase transport now ys) ∧
    (∀ (props : List CardData) (q : Property),
      q ∈ detailPhase transport now props →
        ∃ pd ∈ props, fetch_property_details transport now pd = some q) := by
  constructor
  · intro xs ys pd h
    simp [detailPhase, List.filterMap_append, List.filterMap_cons, h]
  · intro props q hq
    exact List.mem_filterMap.mp hq

/-- Witness for C6: a two-summary batch where the second detail fetch
fails drops exactly that record. -/
theorem detail_enrichment_isolates_failures_witness :
    fetch_property_details demoDetailTransport "2024-01-01" demoSummaryB = none ∧
    detailPhase demoDetailTransport "2024-01-01" [demoSummaryA, demoSummaryB] =
      detailPhase demoDetailTransport "2024-01-01" [demoSummaryA] ++
        detailPhase demoDetailTransport "2024-01-01" [] :=
  ⟨by decide,
   (detail_enrichment_isolates_failures demoDetailTransport "2024-01-01").1
     [demoSummaryA] [] demoSummaryB (by decide)⟩

/-- C8: on a digit-free input every numeric extractor returns the explicit
absent value, and every extractor maps the empty string to its explicit
empty result — no input raises. -/
theorem extractors_never_fail :
    (∀ s : String, (∀ c ∈ s.data, isDigitCh c = false) →
      (parse_price s).1 = none ∧ parse_area s = none ∧ parse_rooms s = none ∧
        parse_bedrooms s = none ∧ parse_year s = none) ∧
    parse_price "" = (none, "") ∧ parse_area "" = none ∧ parse_rooms "" = none ∧
      parse_bedrooms "" = none ∧ parse_year "" = none ∧
      extract_listing_id "" = "" := by
  refine ⟨fun s h => ⟨?_, ?_, ?_, ?_, ?_⟩, by decide⟩
  · by_cases hs : s = ""
    · subst hs; decide
    · simp only [parse_price, if_neg hs]
      cases hE : searchEuroNum (s.data.map (fun c => if c = ',' then '.' else c)) with
      | none => rfl
      | some g =>
        have hdots : ∀ c ∈ g, ¬ ((!decide (c = '.')) = true) := by
          intro c hc
          rcases searchEuroNum_chars _ g hE c hc with ⟨hm, hdd⟩
          rcases List.mem_map.mp hm with ⟨c0, hc0, he⟩
          have h0 : isDigitCh c = false := by
            by_cases h' : c0 = ','
            · subst h'
              simp only [if_pos] at he
              subst he; decide
            · rw [if_neg h'] at he
              exact he ▸ h c0 hc0
          simp only [isDigitDot, h0, Bool.false_or, decide_eq_true_eq] at hdd
          subst hdd; decide
        have hd : digitsToNat (List.filter (fun c => !decide (c = '.')) g) = none := by
          rw [List.filter_eq_nil_iff.mpr hdots]
          rfl
        simp [hd]
  · by_cases hs : s = ""
    · subst hs; decide
    · simp only [parse_area, if_neg hs]
      rw [searchNumUnit_of_no_digit _ _ h]
  · by_cases hs : s = ""
    · subst hs; decide
    · simp only [parse_rooms, if_neg hs]
      rw [searchNumUnit_of_no_digit _ _ h]
  · by_cases hs : s = ""
    · subst hs; decide
    · simp only [parse_bedrooms, if_neg hs]
      rw [searchNumUnit_of_no_digit _ _ h]
  · by_cases hs : s = ""
    · subst hs; decide
    · simp only [parse_year, if_neg hs]
      exact searchYearGo_of_no_digit _ _ h

/-- Witness for C8 on a concrete digit-free input. -/
theorem extractors_never_fail_witness :
    (∀ c ∈ "geen cijfers".data, isDigitCh c = false) ∧
    (parse_price "geen cijfers").1 = none ∧ parse_area "geen cijfers" = none ∧
    parse_rooms "geen cijfers" = none ∧ parse_bedrooms "geen cijfers" = none ∧
    parse_year "geen cijfers" = none :=
  ⟨by decide,
   (extractors_never_fail.1 "geen cijfers" (by decide)).1,
   (extractors_never_fail.1 "geen cijfers" (by decide)).2.1,
   (extractors_never_fail.1 "geen cijfers" (by decide)).2.2.1,
   (extractors_never_fail.1 "geen cijfers" (by decide)).2.2.2.1,
   (extractors_never_fail.1 "geen cijfers" (by decide)).2.2.2.2⟩

/-- C3: the exemplar path joins its four segments; any path whose cleaned
non-empty segment list has at least four entries yields the first four
joined by `-`; any shorter path yields the stripped path with each `/`
replaced by the join separator (empty segments preserved in place). -/
theorem extract_listing_id_spec :
    extract_listing_id "/amsterdam/1012ab/damstraat/1" = "amsterdam-1012ab-damstraat-1" ∧
    (∀ url : String,
      4 ≤ ((pySplit '/' (pyStripCh '/' (replaceAll url.data BASE_URL.data []))).filter
            (fun p => !p.isEmpty)).length →
      extract_listing_id url =
        strOf (List.intercalate "-".data
          (((pySplit '/' (pyStripCh '/' (replaceAll url.data BASE_URL.data []))).filter
            (fun p => !p.isEmpty)).take 4))) ∧
    (∀ url : String,
      ((pySplit '/' (pyStripCh '/' (replaceAll url.data BASE_URL.data []))).filter
        (fun p => !p.isEmpty)).length < 4 →
      extract_listing_id url =
        strOf (replaceAll (pyStripCh '/' (replaceAll url.data BASE_URL.data []))
          "/".data "-".data)) := by
  refine ⟨by decide, fun url h4 => ?_, fun url hlt => ?_⟩
  · by_cases hu : url = ""
    · subst hu; exact absurd h4 (by decide)
    · simp only [extract_listing_id, if_neg hu, if_pos h4]
  · by_cases hu : url = ""
    · subst hu; decide
    · simp only [extract_listing_id, if_neg hu, if_neg (Nat.not_le.mpr hlt)]

/-- Witness for C3 at a five-segment path and a two-segment path. -/
theorem extract_listing_id_spec_witness :
    (4 ≤ ((pySplit '/' (pyStripCh '/' (replaceAll "/amsterdam/1012ab/damstraat/1/koop".data
        BASE_URL.data []))).filter (fun p => !p.isEmpty)).length) ∧
    extract_listing_id "/amsterdam/1012ab/damstraat/1/koop" =
      strOf (List.intercalate "-".data
        (((pySplit '/' (pyStripCh '/' (replaceAll "/amsterdam/1012ab/damstraat/1/koop".data
          BASE_URL.data []))).filter (fun p => !p.isEmpty)).take 4)) ∧
    extract_listing_id "/amsterdam/1012ab" =
      strOf (replaceAll (pyStripCh '/' (replaceAll "/amsterdam/1012ab".data
        BASE_URL.data [])) "/".data "-".data) :=
  ⟨by decide,
   extract_listing_id_spec.2.1 "/amsterdam/1012ab/damstraat/1/koop" (by decide),
   extract_listing_id_spec.2.2 "/amsterdam/1012ab" (by decide)⟩

/-- C7: a document with one advertisement card and one genuine card gives
exactly one summary; three cards with an advertisement in the middle give
the two genuine summaries in document order; any advertisement-marked card
and any card without a listing-shaped link contributes nothing. -/
theorem parse_property_cards_spec :
    (parse_property_cards (.elem "body" [] (NodeList.ofList [demoAdCard, demoCard]))).length = 1 ∧
    parse_property_cards (.elem "body" [] (NodeList.ofList [demoCard, demoAdCard, demoCard2])) =
      [demoSummaryA, demoSummaryB] ∧
    (∀ a : Node, (nodeStrings a).any (fun s => containsSubCI s "Advertentie".data) = true →
      processCard a = none) ∧
    (∀ a : Node, (elemsUnder listingLink a).head? = none → processCard a = none) := by
  refine ⟨by decide, by decide, fun a h => ?_, fun a h => ?_⟩
  · simp [processCard, h]
  · rw [processCard]
    split
    · rfl
    · rw [h]

/-- Witness for C7's skip rules on concrete cards. -/
theorem parse_property_cards_spec_witness :
    ((nodeStrings demoAdCard).any (fun s => containsSubCI s "Advertentie".data) = true) ∧
    processCard demoAdCard = none ∧
    ((elemsUnder listingLink (.elem "article" [] .nil)).head? = none) ∧
    processCard (.elem "article" [] .nil) = none :=
  ⟨by decide,
   parse_property_cards_spec.2.2.1 demoAdCard (by decide),
   rfl,
   parse_property_cards_spec.2.2.2 (.elem "article" [] .nil) rfl⟩

/-- Every page number the loop fetches from position `page` onwards is at
least `page`. -/
theorem scrapeLoop_pages_ge (transport : String → Option Node) (loc pf : String)
    (mp lim : Option Nat) :
    ∀ (fuel page : Nat) (acc : List CardData) (q : Nat),
      q ∈ (scrapeLoop transport loc pf mp lim fuel page acc).2 → page ≤ q := by
  intro fuel
  induction fuel with
  | zero => intro page acc q hq; simp [scrapeLoop] at hq
  | succ n ih =>
    intro page acc q hq
    rw [scrapeLoop] at hq
    by_cases hc1 : pyOptTrue mp = true ∧ page > mp.getD 0
    · rw [if_pos hc1] at hq; simp at hq
    · rw [if_neg hc1] at hq
      by_cases hc2 : pyOptTrue lim = true ∧ acc.length ≥ lim.getD 0
      · rw [if_pos hc2] at hq; simp at hq
      · rw [if_neg hc2] at hq
        cases hT : transport (build_list_url loc page pf) with
        | none => rw [hT] at hq; simp at hq; omega
        | some doc =>
          rw [hT] at hq
          simp only [] at hq
          by_cases hc3 : parse_property_cards doc = []
          · rw [if_pos hc3] at hq; simp at hq; omega
          · rw [if_neg hc3] at hq
            by_cases hc4 : (get_pagination_info doc).2.1 ≥ (get_pagination_info doc).2.2
                ∨ (parse_property_cards doc).length < 10
            · rw [if_pos hc4] at hq; simp at hq; omega
            · rw [if_neg hc4] at hq
              simp only [List.mem_cons] at hq
              rcases hq with rfl | hq
              · exact Nat.le_refl q
              · exact Nat.le_of_succ_le (ih (page + 1) _ q hq)

/-- If some fetched page `p` carries a window with end ≥ total, every
fetched page number is at most `p` (the loop never goes past `p`). -/
theorem scrapeLoop_stop_le (transport : String → Option Node) (loc pf : String)
    (mp lim : Option Nat) (p : Nat) (doc : Node)
    (hfetch : transport (build_list_url loc p pf) = some doc)
    (hwin : (get_pagination_info doc).2.2 ≤ (get_pagination_info doc).2.1) :
    ∀ (fuel page : Nat) (acc : List CardData) (q : Nat),
      q ∈ (scrapeLoop transport loc pf mp lim fuel page acc).2 →
      p ∈ (scrapeLoop transport loc pf mp lim fuel page acc).2 → q ≤ p := by
  intro fuel
  induction fuel with
  | zero => intro page acc q hq hp; simp [scrapeLoop] at hq
  | succ n ih =>
    intro page acc q hq hp
    rw [scrapeLoop] at hq hp
    by_cases hc1 : pyOptTrue mp = true ∧ page > mp.getD 0
    · rw [if_pos hc1] at hq; simp at hq
    · rw [if_neg hc1] at hq hp
      by_cases hc2 : pyOptTrue lim = true ∧ acc.length ≥ lim.getD 0
      · rw [if_pos hc2] at hq; simp at hq
      · rw [if_neg hc2] at hq hp
        cases hT : transport (build_list_url loc page pf) with
        | none => rw [hT] at hq hp; simp at hq hp; omega
        | some doc2 =>
          rw [hT] at hq hp
          simp only [] at hq hp
          by_cases hc3 : parse_property_cards doc2 = []
          · rw [if_pos hc3] at hq hp; simp at hq hp; omega
          · rw [if_neg hc3] at hq hp
            by_cases hc4 : (get_pagination_info doc2).2.1 ≥ (get_pagination_info doc2).2.2
                ∨ (parse_property_cards doc2).length < 10
            · rw [if_pos hc4] at hq hp; simp at hq hp; omega
            · rw [if_neg hc4] at hq hp
              simp only [List.mem_cons] at hq hp
              rcases hp with rfl | hp
              · -- the loop continued past page `p`, contradicting its window
                rw [hfetch] at hT
                cases hT
                exact absurd (Or.inl hwin) hc4
              · rcases hq with rfl | hq
                · exact Nat.le_of_succ_le
                    (scrapeLoop_pages_ge transport loc pf mp lim n (q + 1) _ p hp)
                · exact ih (page + 1) _ q hq hp

/-- C2: once a fetched page reports a window with end ≥ total, no later
page is fetched — every fetched page number stays at or below it, whether
or not a max-pages bound is set. -/
theorem scrape_stops_on_complete_window (transport : String → Option Node)
    (loc pf : String) (mp lim : Option Nat) (fuel p q : Nat) (doc : Node)
    (hfetch : transport (build_list_url loc p pf) = some doc)
    (hwin : (get_pagination_info doc).2.2 ≤ (get_pagination_info doc).2.1)
    (hp : p ∈ scrapedPages transport loc pf mp lim fuel)
    (hq : q ∈ scrapedPages transport loc pf mp lim fuel) :
    q ≤ p :=
  scrapeLoop_stop_le transport loc pf mp lim p doc hfetch hwin fuel 1 [] q hq hp

/-- Witness for C2: a transport whose every page reports window
`(51, 58, 58)` fetches page 1 only. -/
theorem scrape_stops_on_complete_window_witness :
    (fun _ : String => some demoLastPage) (build_list_url "amsterdam" 1 "") =
      some demoLastPage ∧
    (get_pagination_info demoLastPage).2.2 ≤ (get_pagination_info demoLastPage).2.1 ∧
    1 ∈ scrapedPages (fun _ => some demoLastPage) "amsterdam" "" none none 5 ∧
    (1 : Nat) ≤ 1 :=
  ⟨rfl, by decide, by decide,
   scrape_stops_on_complete_window (fun _ => some demoLastPage) "amsterdam" "" none none
     5 1 1 demoLastPage rfl (by decide) (by decide) (by decide)⟩

/-- With `max_pages = n` (non-zero), the loop starting at `page` issues at
most `n + 1 - page` fetches. -/
theorem scrapeLoop_length_le (transport : String → Option Node) (loc pf : String)
    (lim : Option Nat) (n : Nat) (hn : n ≠ 0) :
    ∀ (fuel page : Nat) (acc : List CardData),
      (scrapeLoop transport loc pf (some n) lim fuel page acc).2.length ≤ n + 1 - page := by
  intro fuel
  induction fuel with
  | zero => intro page acc; simp [scrapeLoop]
  | succ m ih =>
    intro page acc
    rw [scrapeLoop]
    by_cases hc1 : pyOptTrue (some n) = true ∧ page > (some n : Option Nat).getD 0
    · rw [if_pos hc1]; simp
    · rw [if_neg hc1]
      have hpage : page ≤ n := by
        rcases Nat.lt_or_ge n page with h | h
        · exact absurd ⟨by simp [pyOptTrue, hn], h⟩ hc1
        · exact h
      by_cases hc2 : pyOptTrue lim = true ∧ acc.length ≥ lim.getD 0
      · rw [if_pos hc2]; simp
      · rw [if_neg hc2]
        cases transport (build_list_url loc page pf) with
        | none => simp; omega
        | some doc =>
          simp only []
          by_cases hc3 : parse_property_cards doc = []
          · rw [if_pos hc3]; simp; omega
          · rw [if_neg hc3]
            by_cases hc4 : (get_pagination_info doc).2.1 ≥ (get_pagination_info doc).2.2
                ∨ (parse_property_cards doc).length < 10
            · rw [if_pos hc4]; simp; omega
            · rw [if_neg hc4]
              have := ih (page + 1) (acc ++ parse_property_cards doc)
              simp only [List.length_cons]
              omega

/-- C4, counterexample: `max_pages = 0` is falsy in Python, so the guard
`if max_pages and page > max_pages` never fires; one page is fetched,
refuting "at most `n` pages" at `n = 0`. -/
theorem scrape_max_pages_counterexample :
    ¬ ((scrapedPages (fun _ => some demoLastPage) "amsterdam" "" (some 0) none 5).length ≤ 0) := by
  decide

/-- C4, amended (`n ≥ 1`): with `max_pages = n` given, at most `n` pages
are ever fetched, whatever the transport returns; in particular
`max_pages = 1` stops after the first page regardless of the reported
total. -/
theorem scrape_max_pages_bound (transport : String → Option Node) (loc pf : String)
    (lim : Option Nat) (fuel n : Nat) (hn : 1 ≤ n) :
    (scrapedPages transport loc pf (some n) lim fuel).length ≤ n := by
  have h := scrapeLoop_length_le transport loc pf lim n (by omega) fuel 1 []
  simpa [scrapedPages] using h

/-- Witness for C4's amended bound: a transport always reporting more
results still yields at most one fetch under `max_pages = 1`. -/
theorem scrape_max_pages_bound_witness :
    (1 : Nat) ≤ 1 ∧
    (scrapedPages (fun _ => some demoMorePage) "amsterdam" "" (some 1) none 5).length ≤ 1 :=
  ⟨by decide,
   scrape_max_pages_bound (fun _ => some demoMorePage) "amsterdam" "" none 5 1 (by decide)⟩

/-- C9: a page whose `nav` texts contain no parseable results window makes
`get_pagination_info` return `(0, 0, 0)`, and a fetched page in that state
is always the last one (its `0 ≥ 0` window stops the loop) even when ten
or more summaries were parsed from it. -/
theorem no_window_is_last_page :
    (∀ doc : Node,
      (∀ nv ∈ elemsTag "nav" doc, parseNavWindow (getTextRaw nv) = none) →
      get_pagination_info doc = (0, 0, 0)) ∧
    (∀ (transport : String → Option Node) (loc pf : String) (lim : Option Nat)
        (fuel p q : Nat) (doc : Node),
      transport (build_list_url loc p pf) = some doc →
      (∀ nv ∈ elemsTag "nav" doc, parseNavWindow (getTextRaw nv) = none) →
      10 ≤ (parse_property_cards doc).length →
      p ∈ scrapedPages transport loc pf none lim fuel →
      q ∈ scrapedPages transport loc pf none lim fuel →
      q ≤ p) := by
  have hA : ∀ doc : Node,
      (∀ nv ∈ elemsTag "nav" doc, parseNavWindow (getTextRaw nv) = none) →
      get_pagination_info doc = (0, 0, 0) := by
    intro doc h
    have hnil : (elemsTag "nav" doc).filterMap (fun n => parseNavWindow (getTextRaw n)) = [] :=
      List.filterMap_eq_nil_iff.mpr h
    simp [get_pagination_info, hnil]
  refine ⟨hA, fun transport loc pf lim fuel p q doc hf hnav _ hp hq => ?_⟩
  exact scrapeLoop_stop_le transport loc pf none lim p doc hf
    (by rw [hA doc hnav]) fuel 1 [] q hq hp

/-- Witness for C9: a ten-card page with no `nav` at all stops the loop at
page 1. -/
theorem no_window_is_last_page_witness :
    (∀ nv ∈ elemsTag "nav" demoTenPage, parseNavWindow (getTextRaw nv) = none) ∧
    10 ≤ (parse_property_cards demoTenPage).length ∧
    1 ∈ scrapedPages (fun _ => some demoTenPage) "amsterdam" "" none none 5 ∧
    (1 : Nat) ≤ 1 :=
  ⟨by decide, by decide, by decide,
   no_window_is_last_page.2 (fun _ => some demoTenPage) "amsterdam" "" none 5 1 1
     demoTenPage rfl (by decide) (by decide) (by decide) (by decide)⟩

/-! ## Living-area tracking through the Detail Enricher (for C10) -/

theorem itemVraagprijs_la (t : List Char) (p : Property) :
    (itemVraagprijs t p).living_area = p.living_area := by
  simp only [itemVraagprijs]; split <;> rfl

theorem itemPerSqm_la (t : List Char) (p : Property) :
    (itemPerSqm t p).living_area = p.living_area := by
  simp only [itemPerSqm]; split <;> rfl

theorem itemListedSince_la (t : List Char) (p : Property) :
    (itemListedSince t p).living_area = p.living_area := by
  simp only [itemListedSince]; split <;> rfl

theorem itemStatus_la (t : List Char) (p : Property) :
    (itemStatus t p).living_area = p.living_area := by
  simp only [itemStatus]; split <;> rfl

theorem itemAanvaarding_la (t : List Char) (p : Property) :
    (itemAanvaarding t p).living_area = p.living_area := by
  simp only [itemAanvaarding]; split <;> rfl

theorem itemSoortWoonhuis_la (t : List Char) (p : Property) :
    (itemSoortWoonhuis t p).living_area = p.living_area := by
  simp only [itemSoortWoonhuis]
  split
  · split <;> rfl
  · rfl

theorem itemSoortBouw_la (t : List Char) (p : Property) :
    (itemSoortBouw t p).living_area = p.living_area := by
  simp only [itemSoortBouw]; split <;> rfl

theorem itemBouwjaar_la (t : List Char) (p : Property) :
    (itemBouwjaar t p).living_area = p.living_area := by
  simp only [itemBouwjaar]; split <;> rfl

theorem itemRenovatiejaar_la (t : List Char) (p : Property) :
    (itemRenovatiejaar t p).living_area = p.living_area := by
  simp only [itemRenovatiejaar]; split <;> rfl

theorem itemSoortDak_la (t : List Char) (p : Property) :
    (itemSoortDak t p).living_area = p.living_area := by
  simp only [itemSoortDak]; split <;> rfl

theorem itemEnergielabel_la (t : List Char) (p : Property) :
    (itemEnergielabel t p).living_area = p.living_area := by
  simp only [itemEnergielabel]; split <;> rfl

theorem itemIsolatie_la (t : List Char) (p : Property) :
    (itemIsolatie t p).living_area = p.living_area := by
  simp only [itemIsolatie]; split <;> rfl

theorem itemVerwarming_la (t : List Char) (p : Property) :
    (itemVerwarming t p).living_area = p.living_area := by
  simp only [itemVerwarming]; split <;> rfl

theorem itemCvKetel_la (t : List Char) (p : Property) :
    (itemCvKetel t p).living_area = p.living_area := by
  simp only [itemCvKetel]; split <;> rfl

/-- The `Woonoppervlakte` branch overwrites `living_area` with whatever
`parse_area` returned, `none` included. -/
theorem itemWoonoppervlakte_la (t : List Char) (p : Property) :
    (itemWoonoppervlakte t p).living_area =
      if containsSub t "Woonoppervlakte".data = true then parse_area (strOf t)
      else p.living_area := by
  simp only [itemWoonoppervlakte]; split <;> rfl

theorem itemPerceel_la (t : List Char) (p : Property) :
    (itemPerceel t p).living_area = p.living_area := by
  simp only [itemPerceel]; split <;> rfl

theorem itemInhoud_la (t : List Char) (p : Property) :
    (itemInhoud t p).living_area = p.living_area := by
  simp only [itemInhoud]; split <;> rfl

theorem itemAantalKamers_la (t : List Char) (p : Property) :
    (itemAantalKamers t p).living_area = p.living_area := by
  simp only [itemAantalKamers]; split <;> rfl

theorem itemBadkamers_la (t : List Char) (p : Property) :
    (itemBadkamers t p).living_area = p.living_area := by
  simp only [itemBadkamers]; split <;> rfl

theorem itemWoonlagen_la (t : List Char) (p : Property) :
    (itemWoonlagen t p).living_area = p.living_area := by
  simp only [itemWoonlagen]; split <;> rfl

theorem itemKeuken_la (t : List Char) (p : Property) :
    (itemKeuken t p).living_area = p.living_area := by
  simp only [itemKeuken]; split <;> rfl

theorem itemKeukenvoorz_la (t : List Char) (p : Property) :
    (itemKeukenvoorz t p).living_area = p.living_area := by
  simp only [itemKeukenvoorz]; split <;> rfl

theorem itemBadkamervoorz_la (t : List Char) (p : Property) :
    (itemBadkamervoorz t p).living_area = p.living_area := by
  simp only [itemBadkamervoorz]; split <;> rfl

theorem itemLigging_la (t : List Char) (p : Property) :
    (itemLigging t p).living_area = p.living_area := by
  simp only [itemLigging]; split <;> rfl

theorem itemParkeren_la (t : List Char) (p : Property) :
    (itemParkeren t p).living_area = p.living_area := by
  simp only [itemParkeren]; split <;> rfl

theorem itemBinnen_la (t : List Char) (p : Property) :
    (itemBinnen t p).living_area = p.living_area := by
  simp only [itemBinnen]; split <;> rfl

theorem itemBuiten_la (t : List Char) (p : Property) :
    (itemBuiten t p).living_area = p.living_area := by
  simp only [itemBuiten]; split <;> rfl

theorem itemKadaster_la (t : List Char) (p : Property) :
    (itemKadaster t p).living_area = p.living_area := by
  simp only [itemKadaster]; split <;> rfl

/-- Across the whole per-item branch sequence, `living_area` is rewritten
exactly by the `Woonoppervlakte` branch. -/
theorem processItem_la (t : List Char) (p : Property) :
    (processItem t p).living_area =
      if containsSub t "Woonoppervlakte".data = true then parse_area (strOf t)
      else p.living_area := by
  simp only [processItem]
  rw [itemKadaster_la, itemBuiten_la, itemBinnen_la, itemParkeren_la, itemLigging_la,
      itemBadkamervoorz_la, itemKeukenvoorz_la, itemKeuken_la, itemWoonlagen_la,
      itemBadkamers_la, itemAantalKamers_la, itemInhoud_la, itemPerceel_la,
      itemWoonoppervlakte_la, itemCvKetel_la, itemVerwarming_la, itemIsolatie_la,
      itemEnergielabel_la, itemSoortDak_la, itemRenovatiejaar_la, itemBouwjaar_la,
      itemSoortBouw_la, itemSoortWoonhuis_la, itemAanvaarding_la, itemStatus_la,
      itemListedSince_la, itemPerSqm_la, itemVraagprijs_la]

/-- The item fold leaves `living_area` alone when no item mentions the
keyword. -/
theorem foldl_processItem_la_keep :
    ∀ (ts : List (List Char)) (p : Property),
      (∀ t ∈ ts, containsSub t "Woonoppervlakte".data = false) →
      (ts.foldl (fun p t => processItem t p) p).living_area = p.living_area := by
  intro ts
  induction ts with
  | nil => intro p _; rfl
  | cons t ts ih =>
    intro p h
    have h0 := h t (List.mem_cons_self t ts)
    rw [List.foldl_cons, ih _ (fun x hx => h x (List.mem_cons_of_mem t hx)),
        processItem_la]
    simp [h0]

/-- If some item mentions `Woonoppervlakte` and every such item parses to
no area, the fold ends with `living_area = none`, whatever it started as. -/
theorem foldl_processItem_la_none :
    ∀ (ts : List (List Char)) (p : Property),
      (∀ t ∈ ts, containsSub t "Woonoppervlakte".data = true →
        parse_area (strOf t) = none) →
      (∃ t ∈ ts, containsSub t "Woonoppervlakte".data = true) →
      (ts.foldl (fun p t => processItem t p) p).living_area = none := by
  intro ts
  induction ts with
  | nil => intro p _ hex; rcases hex with ⟨t, ht, _⟩; simp at ht
  | cons t ts ih =>
    intro p hall hex
    rw [List.foldl_cons]
    by_cases hrest : ∃ x ∈ ts, containsSub x "Woonoppervlakte".data = true
    · exact ih _ (fun x hx hc => hall x (List.mem_cons_of_mem t hx) hc) hrest
    · have hkeep : ∀ x ∈ ts, containsSub x "Woonoppervlakte".data = false := by
        intro x hx
        cases hb : containsSub x "Woonoppervlakte".data with
        | false => rfl
        | true => exact absurd ⟨x, hx, hb⟩ hrest
      rw [foldl_processItem_la_keep ts _ hkeep, processItem_la]
      rcases hex with ⟨x, hx, hcx⟩
      rcases List.mem_cons.mp hx with rfl | hx2
      · rw [if_pos hcx]
        exact hall x (List.mem_cons_self x ts) hcx
      · exact absurd hcx (by simp [hkeep x hx2])

theorem detailTitle_la (doc : Node) (p : Property) :
    (detailTitle doc p).living_area = p.living_area := by
  simp only [detailTitle]; split <;> rfl

theorem detailDesc_la (doc : Node) (p : Property) :
    (detailDesc doc p).living_area = p.living_area := by
  simp only [detailDesc]; split <;> rfl

theorem detailAgent_la (doc : Node) (p : Property) :
    (detailAgent doc p).living_area = p.living_area := by
  simp only [detailAgent]; split <;> rfl

theorem cityStep_la (p : Property) (a : Node) :
    (cityStep p a).living_area = p.living_area := by
  simp only [cityStep]
  split
  · split <;> rfl
  · rfl

theorem foldl_cityStep_la :
    ∀ (ls : List Node) (p : Property),
      (ls.foldl cityStep p).living_area = p.living_area := by
  intro ls
  induction ls with
  | nil => intro p; rfl
  | cons a ls ih => intro p; rw [List.foldl_cons, ih, cityStep_la]

theorem detailCity_la (doc : Node) (p : Property) :
    (detailCity doc p).living_area = p.living_area := by
  simp only [detailCity]
  split
  · rw [foldl_cityStep_la]
  · rfl

theorem detailPostal_la (doc : Node) (p : Property) :
    (detailPostal doc p).living_area = p.living_area := by
  simp only [detailPostal]
  split
  · split <;> rfl
  · rfl

/-- C10: when some `li` item mentions a numeric label (here
`Woonoppervlakte`) but its text yields no parseable area, the detail
enrichment ends with `living_area` absent — the summary-stage value is
discarded rather than kept. -/
theorem parse_detail_page_discards_living_area (doc : Node) (prop : Property)
    (hex : ∃ t ∈ (elemsTag "li" doc).map getTextSpStrip,
      containsSub t "Woonoppervlakte".data = true)
    (hall : ∀ t ∈ (elemsTag "li" doc).map getTextSpStrip,
      containsSub t "Woonoppervlakte".data = true → parse_area (strOf t) = none) :
    (parse_detail_page doc prop).living_area = none := by
  simp only [parse_detail_page]
  rw [detailPostal_la, detailCity_la, detailAgent_la, detailDesc_la]
  exact foldl_processItem_la_none _ (detailTitle doc prop) hall hex

/-- Witness for C10: a detail page whose `Woonoppervlakte` item has no m²
number resets a summary-stage `living_area` of 112 to `none`. -/
theorem parse_detail_page_discards_living_area_witness :
    (∃ t ∈ (elemsTag "li" demoDetailDoc).map getTextSpStrip,
      containsSub t "Woonoppervlakte".data = true) ∧
    (parse_detail_page demoDetailDoc
      { url := "u", living_area := some 112, date_scraped := "t" }).living_area = none :=
  ⟨by decide,
   parse_detail_page_discards_living_area demoDetailDoc
     { url := "u", living_area := some 112, date_scraped := "t" }
     (by decide) (by decide)⟩

/-- The remaining §8 extractor exemplars of the spec, checked by
evaluation: both area spellings, the room/bedroom pair on one text, and
first-match-wins for the year. -/
theorem extractor_exemplars :
    parse_area "112 m²" = some 112 ∧ parse_area "112 m2" = some 112 ∧
    parse_rooms "4 kamers (3 slaapkamers)" = some 4 ∧
    parse_bedrooms "4 kamers (3 slaapkamers)" = some 3 ∧
    parse_year "Bouwjaar: 1950" = some 1950 ∧
    parse_year "1950 en 2020" = some 1950 := by decide
